import Mathlib

/-!
Verification of the attribute storage and retrieval system
(`src/enums.py`, `src/attribute.py`, `src/attribute_types.py`,
`src/log_processor.py`, `src/registry.py`).

Modelling conventions:
* Python `float` values are modelled as exact rationals (`ℚ`); every numeric
  value appearing in the verified properties is exactly representable.
* `re.search(pattern, line, re.IGNORECASE)` is modelled as case-insensitive
  substring containment.  Every pattern the system passes to the log reader
  is an attribute name upper-cased, and all names exercised here are plain
  alphanumeric words without regex metacharacters, for which `re.search`
  is exactly substring search.
* Python exceptions are modelled by the `Except PyExc` monad; an exception
  raised inside a method leaves the receiver unchanged, which matches the
  source: every `fill_value` call happens after the last point that can raise.
* The class-level cache `LogProcessor._file_cache` and the disk are threaded
  explicitly: `Cache` is an association list from path to the raw line list,
  `FS` is the file system.  `process_log` additionally reports whether it
  performed a disk read, so that "no second disk read" is observable.
* String helpers (`strip`, `upper`, `split(":")[-1]`) are implemented as
  structural recursion over `List Char` so that they evaluate by `rfl`.
-/

namespace AttrSys

/-! ### Character-level string helpers (models of Python `str` methods) -/

/-- Model of Python `str.strip()` on a character list. -/
def trimChars (cs : List Char) : List Char :=
  ((cs.dropWhile Char.isWhitespace).reverse.dropWhile Char.isWhitespace).reverse

/-- Model of Python `str.strip()`. -/
def pyStrip (s : String) : String :=
  String.mk (trimChars s.data)

/-- Model of Python `str.upper()` on a character list. -/
def upperChars (cs : List Char) : List Char :=
  cs.map Char.toUpper

/-- Model of Python `str.upper()`. -/
def pyUpper (s : String) : String :=
  String.mk (upperChars s.data)

/-- Is `p` a prefix of `l` (character lists)? -/
def isPrefixOfChars : List Char → List Char → Bool
  | [], _ => true
  | _ :: _, [] => false
  | a :: as, b :: bs => a == b && isPrefixOfChars as bs

/-- Is `p` an infix (contiguous substring) of `l`? -/
def isInfixOfChars (p : List Char) : List Char → Bool
  | [] => p.isEmpty
  | b :: bs => isPrefixOfChars p (b :: bs) || isInfixOfChars p bs

/-- Model of `re.search(pattern, line, re.IGNORECASE)` for patterns free of
regex metacharacters: case-insensitive substring containment. -/
def lineMatches (pattern line : String) : Bool :=
  isInfixOfChars (upperChars pattern.data) (upperChars line.data)

/-- The trailing field of `line.split(":")[-1]`: the characters after the last
`:` (the whole string when there is no `:`), as in Python where `split`
always returns a non-empty list. -/
def lastFieldChars (cs : List Char) : List Char :=
  (cs.reverse.takeWhile (fun c => c != ':')).reverse

/-- Model of Python `line.split(":")[-1].strip()`. -/
def lastField (line : String) : String :=
  String.mk (trimChars (lastFieldChars line.data))

/-! ### Model of Python `float(str)` parsing

Supports the decimal forms `[+-]digits[.digits][eE[+-]digits]` (with `.5`
and `5.` accepted, as Python does).  `inf`, `nan` and underscore separators
are not modelled; no value in the repository or its properties uses them. -/

/-- Numeric value of a digit list, most significant first. -/
def digitsVal (cs : List Char) : ℕ :=
  cs.foldl (fun n c => 10 * n + (c.toNat - 48)) 0

/-- All characters are decimal digits. -/
def allDigits (cs : List Char) : Bool :=
  cs.all Char.isDigit

def pow10 (n : ℕ) : ℚ :=
  (10 : ℚ) ^ n

/-- Scale a rational by `10^e` for a signed exponent. -/
def applyExp (q : ℚ) : ℤ → ℚ
  | .ofNat n => q * pow10 n
  | .negSucc n => q / pow10 (n + 1)

/-- Parse an unsigned decimal exponent. -/
def parseUnsignedExp (cs : List Char) : Option ℕ :=
  if cs.isEmpty then none
  else if allDigits cs then some (digitsVal cs) else none

/-- Parse a signed decimal exponent. -/
def parseExp : List Char → Option ℤ
  | '+' :: ds => (parseUnsignedExp ds).map Int.ofNat
  | '-' :: ds => (parseUnsignedExp ds).map (fun n => -(n : ℤ))
  | ds => (parseUnsignedExp ds).map Int.ofNat

/-- Parse an unsigned mantissa `digits[.digits]` (at least one digit). -/
def parseMantissa (cs : List Char) : Option ℚ :=
  let ip := cs.takeWhile Char.isDigit
  let rest := cs.dropWhile Char.isDigit
  match rest with
  | [] => if ip.isEmpty then none else some (digitsVal ip : ℚ)
  | '.' :: fr =>
    if allDigits fr && (!ip.isEmpty || !fr.isEmpty) then
      some ((digitsVal (ip ++ fr) : ℚ) / pow10 fr.length)
    else none
  | _ => none

def isExpChar (c : Char) : Bool :=
  c == 'e' || c == 'E'

/-- Parse an unsigned float with optional exponent. -/
def pyFloatCore (cs : List Char) : Option ℚ :=
  let m := cs.takeWhile (fun c => !isExpChar c)
  let r := cs.dropWhile (fun c => !isExpChar c)
  match r with
  | [] => parseMantissa m
  | _ :: expPart =>
    match parseMantissa m, parseExp expPart with
    | some q, some e => some (applyExp q e)
    | _, _ => none

/-- Model of Python `float(s)`: `some q` when the conversion succeeds with
value `q`, `none` when it raises `ValueError`. -/
def pyFloatParse? (s : String) : Option ℚ :=
  match trimChars s.data with
  | '+' :: rest => pyFloatCore rest
  | '-' :: rest => (pyFloatCore rest).map Neg.neg
  | cs => pyFloatCore cs

/-! ### Enumerations (`src/enums.py`) -/

/-- `Status`: status returned by evaluator functions. -/
inductive Status
  | OK
  | WARNING
  | ERROR
deriving DecidableEq

/-- `CriticalityLevel`: criticality level of an attribute. -/
inductive CriticalityLevel
  | CRITICAL
  | RELAXED
deriving DecidableEq

/-- Python `CriticalityLevel.name` (`enum` member name). -/
def CriticalityLevel.pyName : CriticalityLevel → String
  | .CRITICAL => "CRITICAL"
  | .RELAXED => "RELAXED"

/-- Python `CriticalityLevel[s]` lookup; `none` models `KeyError`. -/
def CriticalityLevel.ofName? (s : String) : Option CriticalityLevel :=
  if s = "CRITICAL" then some .CRITICAL
  else if s = "RELAXED" then some .RELAXED
  else none

/-- Python exceptions relevant to the modelled code paths. -/
inductive PyExc
  | fileNotFound
  | valueError
  | indexError
  | typeError
  | keyError
deriving DecidableEq

/-! ### Log reader with class-level cache (`src/log_processor.py`) -/

/-- The disk: a mapping from path to the file's raw line list.  A path absent
from `files` does not exist (`open` raises `FileNotFoundError`). -/
structure FS where
  files : List (String × List String)

/-- Model of `open(path).readlines()`: `none` models `FileNotFoundError`. -/
def FS.readlines? (fs : FS) (p : String) : Option (List String) :=
  List.lookup p fs.files

/-- The class-level cache `LogProcessor._file_cache`. -/
abbrev Cache := List (String × List String)

/-- The filtering/stripping loop of `LogProcessor.process_log`: yield
`line.strip()` for every cached line matching the pattern (all lines when
the pattern is `None`). -/
def filterStrip (pattern : Option String) (lines : List String) : List String :=
  (lines.filter fun l =>
    match pattern with
    | none => true
    | some p => lineMatches p l).map pyStrip

/-- `LogProcessor.process_log(logfile_path, pattern)`.  The callers in
`attribute_types.py` always consume the generator eagerly (`list(...)` or a
`for` loop), so it is modelled as an eager function.  Returns the yielded
lines, the updated cache, and whether a disk read was performed. -/
def LogProcessor.process_log (cache : Cache) (fs : FS) (logfile_path : String)
    (pattern : Option String) : Except PyExc (List String × Cache × Bool) :=
  match List.lookup logfile_path cache with
  | some raw => .ok (filterStrip pattern raw, cache, false)
  | none =>
    match fs.readlines? logfile_path with
    | none => .error .fileNotFound
    | some raw => .ok (filterStrip pattern raw, (logfile_path, raw) :: cache, true)

/-! ### Abstract attribute (`src/attribute.py`) -/

/-- `Attribute` base class: name, criticality, evaluator and optional current
value.  `V` is the value type fixed by the concrete variant. -/
structure Attribute (V : Type) where
  name : String
  criticality : CriticalityLevel
  evaluator : Option V → Option V → Status
  value : Option V

/-- `Attribute.fill_value`: set the value of the attribute. -/
def Attribute.fill_value {V : Type} (a : Attribute V) (v : V) : Attribute V :=
  { a with value := some v }

/-- `Attribute.evaluate`: evaluate against a previous value, escalating any
non-OK raw result according to the criticality. -/
def Attribute.evaluate {V : Type} (a : Attribute V) (previous_value : Option V) :
    Status :=
  let result := a.evaluator previous_value a.value
  if result ≠ Status.OK then
    if a.criticality = CriticalityLevel.CRITICAL then Status.ERROR
    else Status.WARNING
  else Status.OK

/-! ### Concrete variants (`src/attribute_types.py`) -/

/-- `NumericAttribute` stores a Python float. -/
abbrev NumericAttribute := Attribute ℚ

/-- `CountAttribute` stores a Python int. -/
abbrev CountAttribute := Attribute ℤ

/-- The value of a `ComplexAttribute`: a JSON-safe dictionary, here a
string-keyed record of numbers (the shape `calculate_percentiles` produces). -/
abbrev ComplexVal := List (String × ℚ)

/-- `AccumulatorAttribute`: an attribute plus a per-instance extractor.  The
extractor is arbitrary Python code and may raise, hence `Except`. -/
structure AccumulatorAttribute where
  attr : Attribute ℚ
  extractor : String → Except PyExc ℚ

/-- `ComplexAttribute`: an attribute plus a per-instance processor taking the
whole matched-line list.  The processor may raise, hence `Except`. -/
structure ComplexAttribute where
  attr : Attribute ComplexVal
  processor : List String → Except PyExc ComplexVal

/-- `NumericAttribute.process_logfile`: take the last line matching
`name.upper()`, parse its trailing `:`-field as a float, and fill the value;
parse failures (`ValueError`/`IndexError`) are swallowed. -/
def NumericAttribute.process_logfile (a : NumericAttribute) (cache : Cache)
    (fs : FS) (logfile_path : String) :
    Except PyExc NumericAttribute × Cache :=
  match LogProcessor.process_log cache fs logfile_path (some (pyUpper a.name)) with
  | .error e => (.error e, cache)
  | .ok (ms, c2, _) =>
    match ms.getLast? with
    | none => (.ok a, c2)
    | some last_match =>
      match pyFloatParse? (lastField last_match) with
      | some v => (.ok (a.fill_value v), c2)
      | none => (.ok a, c2)

/-- `CountAttribute.process_logfile`: fill the value with the number of lines
matching `name.upper()`. -/
def CountAttribute.process_logfile (a : CountAttribute) (cache : Cache)
    (fs : FS) (logfile_path : String) :
    Except PyExc CountAttribute × Cache :=
  match LogProcessor.process_log cache fs logfile_path (some (pyUpper a.name)) with
  | .error e => (.error e, cache)
  | .ok (ms, c2, _) => (.ok (a.fill_value (ms.length : ℤ)), c2)

/-- Did the accumulator loop's `except (ValueError, IndexError)` clause catch
this exception?  Any other exception propagates out of the loop. -/
def caughtByAccum (e : PyExc) : Bool :=
  e == .valueError || e == .indexError

/-- The accumulation loop of `AccumulatorAttribute.process_logfile`: extract
from each line, adding to the running total; `ValueError`/`IndexError` skip
the line, any other exception propagates. -/
def accumLoop (extractor : String → Except PyExc ℚ) :
    List String → ℚ → Except PyExc ℚ
  | [], total => .ok total
  | l :: ls, total =>
    match extractor l with
    | .ok v => accumLoop extractor ls (total + v)
    | .error e =>
      if caughtByAccum e then accumLoop extractor ls total else .error e

/-- `AccumulatorAttribute.process_logfile`: sum the extractor over all lines
matching `name.upper()`, skipping lines whose extraction raised
`ValueError`/`IndexError`, and fill the value with the total (0.0 when there
are no matches). -/
def AccumulatorAttribute.process_logfile (a : AccumulatorAttribute)
    (cache : Cache) (fs : FS) (logfile_path : String) :
    Except PyExc AccumulatorAttribute × Cache :=
  match LogProcessor.process_log cache fs logfile_path
      (some (pyUpper a.attr.name)) with
  | .error e => (.error e, cache)
  | .ok (ms, c2, _) =>
    match accumLoop a.extractor ms 0 with
    | .ok total => (.ok { a with attr := a.attr.fill_value total }, c2)
    | .error e => (.error e, c2)

/-- `ComplexAttribute.process_logfile`: when any line matches `name.upper()`,
apply the processor to the whole matched list and fill the value; with no
matches the value is left untouched. -/
def ComplexAttribute.process_logfile (a : ComplexAttribute) (cache : Cache)
    (fs : FS) (logfile_path : String) :
    Except PyExc ComplexAttribute × Cache :=
  match LogProcessor.process_log cache fs logfile_path
      (some (pyUpper a.attr.name)) with
  | .error e => (.error e, cache)
  | .ok (lines, c2, _) =>
    match lines with
    | [] => (.ok a, c2)
    | _ :: _ =>
      match a.processor lines with
      | .ok result => (.ok { a with attr := a.attr.fill_value result }, c2)
      | .error e => (.error e, c2)

/-! ### Serialization (`to_dict` / `from_dict`) -/

/-- A value stored in the `'value'` slot of a serialized record.  A `complex`
attribute stores `json.dumps(self.value)`; since `json.dumps` is injective on
the JSON-safe dictionaries used here and `json.loads` is its inverse, that
JSON string is represented by its parse `jsonStr o`. -/
inductive StoredVal
  | num (q : ℚ)
  | intv (n : ℤ)
  | jsonStr (o : ComplexVal)
deriving DecidableEq

/-- The flat record produced by `to_dict` and consumed by `from_dict`.
`atype` models the `'type'` key. -/
structure AttrRecord where
  name : String
  atype : String
  criticality : String
  value : Option StoredVal
deriving DecidableEq

/-- Python `float(x)` applied to a stored value (`from_dict` of the numeric
and accumulator variants). -/
def pyFloatOfStored : StoredVal → Except PyExc ℚ
  | .num q => .ok q
  | .intv n => .ok (n : ℚ)
  | .jsonStr _ => .error .valueError

/-- Python `int(x)` applied to a stored value (`from_dict` of the count
variant); `int(float)` truncates toward zero. -/
def pyIntOfStored : StoredVal → Except PyExc ℤ
  | .num q => .ok (Int.tdiv q.num (q.den : ℤ))
  | .intv n => .ok n
  | .jsonStr _ => .error .valueError

/-- The no-op `default_evaluator` every `from_dict` installs. -/
def default_evaluator {V : Type} : Option V → Option V → Status :=
  fun _ _ => Status.OK

/-- The `default_extractor` installed by `AccumulatorAttribute.from_dict`,
also the default `extractor` argument of the constructor:
`float(line.split(":")[-1].strip())`. -/
def default_extractor (line : String) : Except PyExc ℚ :=
  match pyFloatParse? (lastField line) with
  | some v => .ok v
  | none => .error .valueError

/-- The `default_processor` installed by `ComplexAttribute.from_dict`. -/
def default_processor (lines : List String) : Except PyExc ComplexVal :=
  .ok [("value", (lines.length : ℚ))]

/-- `NumericAttribute.to_dict`. -/
def NumericAttribute.to_dict (a : NumericAttribute) : AttrRecord :=
  { name := a.name
    atype := "numeric"
    criticality := a.criticality.pyName
    value := a.value.map StoredVal.num }

/-- `NumericAttribute.from_dict`. -/
def NumericAttribute.from_dict (data : AttrRecord) :
    Except PyExc NumericAttribute :=
  match CriticalityLevel.ofName? data.criticality with
  | none => .error .keyError
  | some crit =>
    let instt : NumericAttribute :=
      { name := data.name, criticality := crit
        evaluator := default_evaluator, value := none }
    match data.value with
    | none => .ok instt
    | some sv =>
      match pyFloatOfStored sv with
      | .ok q => .ok (instt.fill_value q)
      | .error e => .error e

/-- `CountAttribute.to_dict`. -/
def CountAttribute.to_dict (a : CountAttribute) : AttrRecord :=
  { name := a.name
    atype := "count"
    criticality := a.criticality.pyName
    value := a.value.map StoredVal.intv }

/-- `CountAttribute.from_dict`. -/
def CountAttribute.from_dict (data : AttrRecord) :
    Except PyExc CountAttribute :=
  match CriticalityLevel.ofName? data.criticality with
  | none => .error .keyError
  | some crit =>
    let instt : CountAttribute :=
      { name := data.name, criticality := crit
        evaluator := default_evaluator, value := none }
    match data.value with
    | none => .ok instt
    | some sv =>
      match pyIntOfStored sv with
      | .ok n => .ok (instt.fill_value n)
      | .error e => .error e

/-- `AccumulatorAttribute.to_dict`. -/
def AccumulatorAttribute.to_dict (a : AccumulatorAttribute) : AttrRecord :=
  { name := a.attr.name
    atype := "accumulator"
    criticality := a.attr.criticality.pyName
    value := a.attr.value.map StoredVal.num }

/-- `AccumulatorAttribute.from_dict`. -/
def AccumulatorAttribute.from_dict (data : AttrRecord) :
    Except PyExc AccumulatorAttribute :=
  match CriticalityLevel.ofName? data.criticality with
  | none => .error .keyError
  | some crit =>
    let instt : AccumulatorAttribute :=
      { attr := { name := data.name, criticality := crit
                  evaluator := default_evaluator, value := none }
        extractor := default_extractor }
    match data.value with
    | none => .ok instt
    | some sv =>
      match pyFloatOfStored sv with
      | .ok q => .ok { instt with attr := instt.attr.fill_value q }
      | .error e => .error e

/-- `ComplexAttribute.to_dict`: the value is JSON-encoded before storage. -/
def ComplexAttribute.to_dict (a : ComplexAttribute) : AttrRecord :=
  { name := a.attr.name
    atype := "complex"
    criticality := a.attr.criticality.pyName
    value := a.attr.value.map StoredVal.jsonStr }

/-- `ComplexAttribute.from_dict`: `json.loads` of the stored JSON string. -/
def ComplexAttribute.from_dict (data : AttrRecord) :
    Except PyExc ComplexAttribute :=
  match CriticalityLevel.ofName? data.criticality with
  | none => .error .keyError
  | some crit =>
    let instt : ComplexAttribute :=
      { attr := { name := data.name, criticality := crit
                  evaluator := default_evaluator, value := none }
        processor := default_processor }
    match data.value with
    | none => .ok instt
    | some sv =>
      match sv with
      | .jsonStr o => .ok { instt with attr := instt.attr.fill_value o }
      | _ => .error .typeError

/-! ### Registry (`src/registry.py`) -/

/-- An attribute of any of the four variants, as stored in the registry. -/
inductive AnyAttribute
  | numeric (a : NumericAttribute)
  | count (a : CountAttribute)
  | accumulator (a : AccumulatorAttribute)
  | complex (a : ComplexAttribute)

/-- Variant dispatch of `attribute.process_logfile(logfile_path)`. -/
def AnyAttribute.process_logfile (x : AnyAttribute) (cache : Cache) (fs : FS)
    (logfile_path : String) : Except PyExc AnyAttribute × Cache :=
  match x with
  | .numeric a =>
    let r := NumericAttribute.process_logfile a cache fs logfile_path
    (r.1.map .numeric, r.2)
  | .count a =>
    let r := CountAttribute.process_logfile a cache fs logfile_path
    (r.1.map .count, r.2)
  | .accumulator a =>
    let r := AccumulatorAttribute.process_logfile a cache fs logfile_path
    (r.1.map .accumulator, r.2)
  | .complex a =>
    let r := ComplexAttribute.process_logfile a cache fs logfile_path
    (r.1.map .complex, r.2)

/-- Whether the attribute's value is set (`self._value is not None`). -/
def AnyAttribute.valueIsSet : AnyAttribute → Bool
  | .numeric a => a.value.isSome
  | .count a => a.value.isSome
  | .accumulator a => a.attr.value.isSome
  | .complex a => a.attr.value.isSome

/-- `AttributeRegistry.process_logfile`: call `process_logfile` on every
registered attribute in registration order.  The loop body is not guarded
by any `try`/`except`, so an exception raised by one attribute propagates:
the loop stops there, and the failing attribute as well as every attribute
after it keep their previous state.  The result is the attribute list, the
final cache, and the propagated exception if any. -/
def AttributeRegistry.process_logfile :
    List AnyAttribute → Cache → FS → String →
    List AnyAttribute × Cache × Option PyExc
  | [], cache, _, _ => ([], cache, none)
  | a :: rest, cache, fs, p =>
    match AnyAttribute.process_logfile a cache fs p with
    | (.ok a2, c2) =>
      let r := AttributeRegistry.process_logfile rest c2 fs p
      (a2 :: r.1, r.2.1, r.2.2)
    | (.error e, c2) => (a :: rest, c2, some e)

/-! ### Derived definitions used by the statements -/

/-- Did the extractor call on this line either succeed or raise an exception
caught by the accumulator loop (so that the line is merely skipped)? -/
def extractionCaught (r : Except PyExc ℚ) : Bool :=
  match r with
  | .ok _ => true
  | .error e => caughtByAccum e

/-- The sum of the successfully extracted values of a line list, skipping
lines whose extraction fails. -/
def sumExtracted (f : String → Except PyExc ℚ) (ls : List String) : ℚ :=
  ls.foldl (fun t l =>
    match f l with
    | .ok v => t + v
    | .error _ => t) 0

/-! ### Concrete instances used by witnesses and counterexamples -/

/-- A file system with no files at all. -/
def emptyFS : FS := ⟨[]⟩

def w1Attr : Attribute ℚ :=
  { name := "PNL", criticality := .CRITICAL
    evaluator := fun _ _ => Status.WARNING, value := none }

def w1Attr2 : Attribute ℚ :=
  { name := "RAM", criticality := .RELAXED
    evaluator := fun _ _ => Status.OK, value := none }

/-- A complex attribute whose per-instance processor raises `TypeError`
(processors are arbitrary caller-supplied Python callables). -/
def c2Complex : ComplexAttribute :=
  { attr := { name := "ALPHA", criticality := .CRITICAL
              evaluator := default_evaluator, value := none }
    processor := fun _ => .error .typeError }

def c2Count : CountAttribute :=
  { name := "BETA", criticality := .RELAXED
    evaluator := default_evaluator, value := none }

def c2raw : List String := ["ALPHA: 1\n", "BETA: 2\n"]

def c2FS : FS := ⟨[("app.log", c2raw)]⟩

def nGamma : NumericAttribute :=
  { name := "GAMMA", criticality := .RELAXED
    evaluator := default_evaluator, value := none }

def fs4raw : List String := ["LATENCY: 10\n"]

def fs4 : FS := ⟨[("srv.log", fs4raw)]⟩

def cache4 : Cache := [("srv.log", fs4raw)]

/-- A cache entry for a path that no longer exists on disk. -/
def c5cache : Cache := [("gone.log", ["X: 1\n"])]

def sAttr : NumericAttribute :=
  { name := "STATUS", criticality := .CRITICAL
    evaluator := default_evaluator, value := none }

def fs6raw : List String := ["STATUS: 200\n", "STATUS: 404\n", "STATUS: 503\n"]

def fs6 : FS := ⟨[("web.log", fs6raw)]⟩

def cache6 : Cache := [("web.log", fs6raw)]

def ms6 : List String := ["STATUS: 200", "STATUS: 404", "STATUS: 503"]

def tAttr : AccumulatorAttribute :=
  { attr := { name := "TIME", criticality := .RELAXED
              evaluator := default_evaluator, value := none }
    extractor := default_extractor }

def fs7raw : List String := ["TIME: 1.5\n", "TIME: bad\n", "TIME: 2.5\n"]

def fs7 : FS := ⟨[("perf.log", fs7raw)]⟩

def cache7 : Cache := [("perf.log", fs7raw)]

def tMs : List String := ["TIME: 1.5", "TIME: bad", "TIME: 2.5"]

def c8Attr : CountAttribute :=
  { name := "ERRORS", criticality := .CRITICAL
    evaluator := default_evaluator, value := none }

def fs8raw : List String := ["INFO: fine\n"]

def fs8 : FS := ⟨[("quiet.log", fs8raw)]⟩

def cache8 : Cache := [("quiet.log", fs8raw)]

def lAttr : NumericAttribute :=
  { name := "LATENCY", criticality := .RELAXED
    evaluator := default_evaluator, value := none }

def fs9raw : List String := ["LATENCY: 5\n", "LATENCY: bad\n"]

def fs9 : FS := ⟨[("lat.log", fs9raw)]⟩

def cache9 : Cache := [("lat.log", fs9raw)]

def ms9 : List String := ["LATENCY: 5", "LATENCY: bad"]

def w10 : NumericAttribute :=
  { name := "DELTA", criticality := .RELAXED
    evaluator := default_evaluator, value := some 7 }

def fs10raw : List String := ["INFO: x\n"]

def fs10 : FS := ⟨[("d.log", fs10raw)]⟩

/-! ### Helper lemmas about the cached log reader -/

theorem lookup_cons_self (p : String) (raw : List String) (c : Cache) :
    List.lookup p ((p, raw) :: c) = some raw := by
  simp [List.lookup]

theorem process_log_cached {c : Cache} {p : String} {raw : List String}
    (fs : FS) (pat : Option String) (h : List.lookup p c = some raw) :
    LogProcessor.process_log c fs p pat = .ok (filterStrip pat raw, c, false) := by
  unfold LogProcessor.process_log
  rw [h]

theorem process_log_ok_lookup {c c2 : Cache} {fs : FS} {p : String}
    {pat : Option String} {ls : List String} {r : Bool}
    (h : LogProcessor.process_log c fs p pat = .ok (ls, c2, r)) :
    ∃ raw, List.lookup p c2 = some raw ∧ ls = filterStrip pat raw := by
  unfold LogProcessor.process_log at h
  split at h
  next raw hc =>
    simp only [Except.ok.injEq, Prod.mk.injEq] at h
    obtain ⟨h1, h2, _⟩ := h
    exact ⟨raw, by rw [← h2]; exact hc, h1.symm⟩
  next hc =>
    split at h
    next => simp at h
    next raw hr =>
      simp only [Except.ok.injEq, Prod.mk.injEq] at h
      obtain ⟨h1, h2, _⟩ := h
      refine ⟨raw, ?_, h1.symm⟩
      rw [← h2]
      exact lookup_cons_self p raw c

/-! ### Claim theorems -/

/-- C1: for every attribute (the four variants all inherit this single
`evaluate`), any criticality and any previous/current value pair: a non-OK
raw evaluator result yields ERROR under CRITICAL and WARNING under RELAXED,
regardless of whether the evaluator returned WARNING or ERROR; an OK raw
result yields OK. -/
theorem C1_evaluate_escalation :
    ∀ (V : Type) (a : Attribute V) (prev : Option V),
    (a.evaluator prev a.value ≠ Status.OK →
      a.evaluate prev =
        (if a.criticality = CriticalityLevel.CRITICAL then Status.ERROR
         else Status.WARNING)) ∧
    (a.evaluator prev a.value = Status.OK → a.evaluate prev = Status.OK) := by
  intro V a prev
  constructor <;> intro h <;> simp [Attribute.evaluate, h]

/-- C1 witness: a CRITICAL attribute whose evaluator returns WARNING
evaluates to ERROR, and a RELAXED attribute whose evaluator returns OK
evaluates to OK. -/
theorem C1_evaluate_escalation_witness :
    w1Attr.evaluate none = Status.ERROR ∧ w1Attr2.evaluate none = Status.OK := by
  constructor
  · have h := (C1_evaluate_escalation ℚ w1Attr none).1 (by decide)
    simpa [w1Attr] using h
  · exact (C1_evaluate_escalation ℚ w1Attr2 none).2 (by rfl)

/-- C4: after a successful call to the cached reader, a second call for the
same path with the same pattern returns the identical line sequence, leaves
the cache unchanged and performs no disk read; moreover every subsequent
call for that path with any pattern performs no disk read. -/
theorem C4_cached_read_idempotent :
    ∀ (c : Cache) (fs : FS) (p : String) (pat : Option String)
      (ls : List String) (c2 : Cache) (r : Bool),
    LogProcessor.process_log c fs p pat = .ok (ls, c2, r) →
    LogProcessor.process_log c2 fs p pat = .ok (ls, c2, false) ∧
    ∀ pat2, ∃ ls2,
      LogProcessor.process_log c2 fs p pat2 = .ok (ls2, c2, false) := by
  intro c fs p pat ls c2 r h
  obtain ⟨raw, hmem, hls⟩ := process_log_ok_lookup h
  constructor
  · rw [hls]
    exact process_log_cached fs pat hmem
  · intro pat2
    exact ⟨filterStrip pat2 raw, process_log_cached fs pat2 hmem⟩

/-- C4 witness: after reading `srv.log` once, a repeat call with the same
pattern returns the same lines without a disk read, and a call with a
different pattern also reads no disk. -/
theorem C4_cached_read_idempotent_witness :
    LogProcessor.process_log cache4 fs4 "srv.log" (some "LATENCY")
      = .ok (["LATENCY: 10"], cache4, false) ∧
    ∃ ls2, LogProcessor.process_log cache4 fs4 "srv.log" none
      = .ok (ls2, cache4, false) := by
  have h := C4_cached_read_idempotent [] fs4 "srv.log" (some "LATENCY")
    ["LATENCY: 10"] cache4 true (by rfl)
  exact ⟨h.1, h.2 none⟩

/-- C5: the cached read fails — and then only with `FileNotFoundError` —
exactly when the path is neither cached nor on disk; when the path is
cached the call succeeds from the cache alone, whatever the disk holds. -/
theorem C5_notfound_exactly :
    ∀ (c : Cache) (fs : FS) (p : String) (pat : Option String),
    (LogProcessor.process_log c fs p pat = .error .fileNotFound ↔
      List.lookup p c = none ∧ fs.readlines? p = none) ∧
    (∀ e, LogProcessor.process_log c fs p pat = .error e →
      e = PyExc.fileNotFound) ∧
    (∀ raw, List.lookup p c = some raw →
      LogProcessor.process_log c fs p pat
        = .ok (filterStrip pat raw, c, false)) := by
  intro c fs p pat
  refine ⟨⟨?_, ?_⟩, ?_, fun raw h => process_log_cached fs pat h⟩
  · intro h
    unfold LogProcessor.process_log at h
    split at h
    next => simp at h
    next hc =>
      split at h
      next hr => exact ⟨hc, hr⟩
      next => simp at h
  · rintro ⟨hc, hr⟩
    unfold LogProcessor.process_log
    rw [hc, hr]
  · intro e h
    unfold LogProcessor.process_log at h
    split at h
    next => simp at h
    next =>
      split at h
      next => simpa using h.symm
      next => simp at h

/-- C5 witness: an uncached, nonexistent path fails with
`FileNotFoundError`; a cached path succeeds although the file is gone from
the disk. -/
theorem C5_notfound_exactly_witness :
    LogProcessor.process_log [] emptyFS "a.log" none = .error .fileNotFound ∧
    LogProcessor.process_log c5cache emptyFS "gone.log" none
      = .ok (["X: 1"], c5cache, false) := by
  constructor
  · exact (C5_notfound_exactly [] emptyFS "a.log" none).1.mpr ⟨rfl, rfl⟩
  · exact (C5_notfound_exactly c5cache emptyFS "gone.log" none).2.2
      ["X: 1\n"] (by rfl)

/-- C6: scalar extraction takes the last matching line: when the cached read
for the attribute's upper-cased name yields matches whose last line parses,
the parsed trailing `:`-field of that last match becomes the value; with no
matches the attribute is returned unchanged (an unset value stays unset). -/
theorem C6_scalar_last_match :
    ∀ (a : NumericAttribute) (c : Cache) (fs : FS) (p : String)
      (ms : List String) (c2 : Cache) (r : Bool),
    LogProcessor.process_log c fs p (some (pyUpper a.name)) = .ok (ms, c2, r) →
    (∀ lastm v, ms.getLast? = some lastm →
      pyFloatParse? (lastField lastm) = some v →
      NumericAttribute.process_logfile a c fs p = (.ok (a.fill_value v), c2)) ∧
    (ms = [] → NumericAttribute.process_logfile a c fs p = (.ok a, c2)) := by
  intro a c fs p ms c2 r h
  constructor
  · intro lastm v hlast hv
    unfold NumericAttribute.process_logfile
    rw [h]
    dsimp only
    rw [hlast]
    dsimp only
    rw [hv]
  · intro hms
    subst hms
    unfold NumericAttribute.process_logfile
    rw [h]
    rfl

/-- C6 witness: over lines `STATUS: 200`, `STATUS: 404`, `STATUS: 503` the
STATUS scalar attribute ends with value 503 — the last match, not the first
or an aggregate. -/
theorem C6_scalar_last_match_witness :
    NumericAttribute.process_logfile sAttr [] fs6 "web.log"
      = (.ok (sAttr.fill_value 503), cache6) :=
  (C6_scalar_last_match sAttr [] fs6 "web.log" ms6 cache6 true (by rfl)).1
    "STATUS: 503" 503 (by rfl) (by decide)

/-- C9: when the last matching line fails numeric parsing, the scalar
attribute is returned unchanged — no fallback to an earlier parsable match
and no exception. -/
theorem C9_scalar_unparsable_last :
    ∀ (a : NumericAttribute) (c : Cache) (fs : FS) (p : String)
      (ms : List String) (c2 : Cache) (r : Bool) (lastm : String),
    LogProcessor.process_log c fs p (some (pyUpper a.name)) = .ok (ms, c2, r) →
    ms.getLast? = some lastm →
    pyFloatParse? (lastField lastm) = none →
    NumericAttribute.process_logfile a c fs p = (.ok a, c2) := by
  intro a c fs p ms c2 r lastm h hlast hv
  unfold NumericAttribute.process_logfile
  rw [h]
  dsimp only
  rw [hlast]
  dsimp only
  rw [hv]

/-- C9 witness: lines `LATENCY: 5`, `LATENCY: bad` — the last match does not
parse, so the attribute keeps its unset value although an earlier match was
parsable, and no error is raised. -/
theorem C9_scalar_unparsable_last_witness :
    NumericAttribute.process_logfile lAttr [] fs9 "lat.log"
      = (.ok lAttr, cache9) :=
  C9_scalar_unparsable_last lAttr [] fs9 "lat.log" ms9 cache9 true
    "LATENCY: bad" (by rfl) (by rfl) (by decide)

/-- C8: count extraction over a log file with zero matching lines sets the
value to 0 — a set value, not an unset one. -/
theorem C8_count_zero_matches :
    ∀ (a : CountAttribute) (c : Cache) (fs : FS) (p : String)
      (c2 : Cache) (r : Bool),
    LogProcessor.process_log c fs p (some (pyUpper a.name)) = .ok ([], c2, r) →
    CountAttribute.process_logfile a c fs p = (.ok (a.fill_value 0), c2) := by
  intro a c fs p c2 r h
  unfold CountAttribute.process_logfile
  rw [h]
  rfl

/-- C8 witness: a count attribute named ERRORS over a file with no matching
lines ends with value 0 (set), not unset. -/
theorem C8_count_zero_matches_witness :
    CountAttribute.process_logfile c8Attr [] fs8 "quiet.log"
      = (.ok (c8Attr.fill_value 0), cache8) :=
  C8_count_zero_matches c8Attr [] fs8 "quiet.log" cache8 true (by rfl)

/-- The accumulator loop equals a pure fold when every per-line extraction
either succeeds or raises only `ValueError`/`IndexError`. -/
theorem accumLoop_eq_sum (f : String → Except PyExc ℚ) :
    ∀ ls : List String, (∀ l ∈ ls, extractionCaught (f l) = true) →
    ∀ t : ℚ, accumLoop f ls t
      = .ok (ls.foldl (fun t l =>
          match f l with
          | .ok v => t + v
          | .error _ => t) t) := by
  intro ls
  induction ls with
  | nil => intro _ t; rfl
  | cons l ls ih =>
    intro hall t
    have hl := hall l (by simp)
    have hrest : ∀ x ∈ ls, extractionCaught (f x) = true :=
      fun x hx => hall x (by simp [hx])
    unfold accumLoop
    cases hf : f l with
    | ok v =>
      simp only [List.foldl, hf]
      exact ih hrest (t + v)
    | error e =>
      have hc : caughtByAccum e = true := by
        simpa [extractionCaught, hf] using hl
      simp only [List.foldl, hf, hc, if_true]
      exact ih hrest t

/-- C7: accumulator extraction sums the successfully extracted values over
all matching lines, skipping lines whose extraction fails to parse; with no
matches the sum is 0. -/
theorem C7_accumulator_skips_unparsable :
    ∀ (a : AccumulatorAttribute) (c : Cache) (fs : FS) (p : String)
      (ms : List String) (c2 : Cache) (r : Bool),
    LogProcessor.process_log c fs p (some (pyUpper a.attr.name))
      = .ok (ms, c2, r) →
    (∀ l ∈ ms, extractionCaught (a.extractor l) = true) →
    AccumulatorAttribute.process_logfile a c fs p
      = (.ok { a with attr := a.attr.fill_value (sumExtracted a.extractor ms) },
         c2) := by
  intro a c fs p ms c2 r h hall
  unfold AccumulatorAttribute.process_logfile
  rw [h]
  dsimp only
  rw [accumLoop_eq_sum a.extractor ms hall 0]
  rfl

/-- C7 witness: lines `TIME: 1.5`, `TIME: bad`, `TIME: 2.5` under pattern
TIME — the unparsable middle line is skipped and the total is 4.0. -/
theorem C7_accumulator_skips_unparsable_witness :
    AccumulatorAttribute.process_logfile tAttr [] fs7 "perf.log"
      = (.ok { tAttr with attr := tAttr.attr.fill_value 4 }, cache7) := by
  have h := C7_accumulator_skips_unparsable tAttr [] fs7 "perf.log" tMs cache7
    true (by rfl) (by decide)
  have hs : sumExtracted tAttr.extractor tMs = 4 := by
    have h2 : sumExtracted tAttr.extractor tMs
        = 0 + (15 : ℚ) / pow10 1 + (25 : ℚ) / pow10 1 := rfl
    rw [h2]
    norm_num [pow10]
  rw [hs] at h
  exact h

/-- C2 counterexample: a two-attribute registry over one log file.  The
first attribute's extraction raises (its processor fails), and the pass
returns with the second attribute untouched — its value is still unset —
although processing the second attribute by itself on the same file
succeeds and sets its value to 1.  The remaining attribute's extraction is
therefore not performed, contrary to the claim. -/
theorem C2_isolation_counterexample :
    AttributeRegistry.process_logfile [.complex c2Complex, .count c2Count]
      [] c2FS "app.log"
      = ([.complex c2Complex, .count c2Count], [("app.log", c2raw)],
         some .typeError) ∧
    (CountAttribute.process_logfile c2Count [] c2FS "app.log").1
      = .ok (c2Count.fill_value 1) := by
  constructor <;> rfl

/-- C2 (amended): when one attribute's extraction raises during a
registry-wide pass, the pass aborts there — the failing attribute and every
attribute after it in registration order keep their previous state, and the
exception propagates to the caller. -/
theorem C2_pass_aborts_on_failure :
    ∀ (a : AnyAttribute) (rest : List AnyAttribute) (c : Cache) (fs : FS)
      (p : String) (e : PyExc) (c2 : Cache),
    AnyAttribute.process_logfile a c fs p = (.error e, c2) →
    AttributeRegistry.process_logfile (a :: rest) c fs p
      = (a :: rest, c2, some e) := by
  intro a rest c fs p e c2 h
  unfold AttributeRegistry.process_logfile
  rw [h]

/-- C2 witness (for the amended claim): a registry pass over a missing log
file aborts at the first attribute with `FileNotFoundError`, leaving every
attribute untouched. -/
theorem C2_pass_aborts_on_failure_witness :
    AttributeRegistry.process_logfile [.numeric nGamma, .count c2Count]
      [] emptyFS "x.log"
      = ([.numeric nGamma, .count c2Count], [], some .fileNotFound) :=
  C2_pass_aborts_on_failure (.numeric nGamma) [.count c2Count] [] emptyFS
    "x.log" .fileNotFound [] (by rfl)

/-- C3: for each of the four variants, any name, criticality and value (set
or unset), `from_dict (to_dict attr)` reconstructs an attribute whose name,
criticality and value equal the original's exactly. -/
theorem C3_serialization_roundtrip :
    (∀ a : NumericAttribute, ∃ b,
      NumericAttribute.from_dict (NumericAttribute.to_dict a) = .ok b ∧
      b.name = a.name ∧ b.criticality = a.criticality ∧ b.value = a.value) ∧
    (∀ a : CountAttribute, ∃ b,
      CountAttribute.from_dict (CountAttribute.to_dict a) = .ok b ∧
      b.name = a.name ∧ b.criticality = a.criticality ∧ b.value = a.value) ∧
    (∀ a : AccumulatorAttribute, ∃ b,
      AccumulatorAttribute.from_dict (AccumulatorAttribute.to_dict a) = .ok b ∧
      b.attr.name = a.attr.name ∧ b.attr.criticality = a.attr.criticality ∧
      b.attr.value = a.attr.value) ∧
    (∀ a : ComplexAttribute, ∃ b,
      ComplexAttribute.from_dict (ComplexAttribute.to_dict a) = .ok b ∧
      b.attr.name = a.attr.name ∧ b.attr.criticality = a.attr.criticality ∧
      b.attr.value = a.attr.value) := by
  refine ⟨?_, ?_, ?_, ?_⟩
  · rintro ⟨n, crit, ev, val⟩
    cases crit <;> cases val <;> exact ⟨_, rfl, rfl, rfl, rfl⟩
  · rintro ⟨n, crit, ev, val⟩
    cases crit <;> cases val <;> exact ⟨_, rfl, rfl, rfl, rfl⟩
  · rintro ⟨⟨n, crit, ev, val⟩, ex⟩
    cases crit <;> cases val <;> exact ⟨_, rfl, rfl, rfl, rfl⟩
  · rintro ⟨⟨n, crit, ev, val⟩, pr⟩
    cases crit <;> cases val <;> exact ⟨_, rfl, rfl, rfl, rfl⟩

/-! ### Helper lemmas: extraction never clears a set value -/

theorem num_process_preserves_set {a b : NumericAttribute} {c c2 : Cache}
    {fs : FS} {p : String}
    (h : NumericAttribute.process_logfile a c fs p = (.ok b, c2))
    (hv : a.value.isSome = true) : b.value.isSome = true := by
  unfold NumericAttribute.process_logfile at h
  split at h
  next => simp at h
  next =>
    split at h
    next =>
      simp only [Prod.mk.injEq, Except.ok.injEq] at h
      rw [← h.1]
      exact hv
    next =>
      split at h
      next =>
        simp only [Prod.mk.injEq, Except.ok.injEq] at h
        rw [← h.1]
        simp [Attribute.fill_value]
      next =>
        simp only [Prod.mk.injEq, Except.ok.injEq] at h
        rw [← h.1]
        exact hv

theorem count_process_preserves_set {a b : CountAttribute} {c c2 : Cache}
    {fs : FS} {p : String}
    (h : CountAttribute.process_logfile a c fs p = (.ok b, c2)) :
    b.value.isSome = true := by
  unfold CountAttribute.process_logfile at h
  split at h
  next => simp at h
  next =>
    simp only [Prod.mk.injEq, Except.ok.injEq] at h
    rw [← h.1]
    simp [Attribute.fill_value]

theorem accum_process_preserves_set {a b : AccumulatorAttribute} {c c2 : Cache}
    {fs : FS} {p : String}
    (h : AccumulatorAttribute.process_logfile a c fs p = (.ok b, c2)) :
    b.attr.value.isSome = true := by
  unfold AccumulatorAttribute.process_logfile at h
  split at h
  next => simp at h
  next =>
    split at h
    next =>
      simp only [Prod.mk.injEq, Except.ok.injEq] at h
      rw [← h.1]
      simp [Attribute.fill_value]
    next => simp at h

theorem complex_process_preserves_set {a b : ComplexAttribute} {c c2 : Cache}
    {fs : FS} {p : String}
    (h : ComplexAttribute.process_logfile a c fs p = (.ok b, c2))
    (hv : a.attr.value.isSome = true) : b.attr.value.isSome = true := by
  unfold ComplexAttribute.process_logfile at h
  split at h
  next => simp at h
  next =>
    split at h
    next =>
      simp only [Prod.mk.injEq, Except.ok.injEq] at h
      rw [← h.1]
      exact hv
    next =>
      split at h
      next =>
        simp only [Prod.mk.injEq, Except.ok.injEq] at h
        rw [← h.1]
        simp [Attribute.fill_value]
      next => simp at h

/-- C10: for every attribute of any variant, a `process_logfile` call that
returns normally never clears a set value: if the value was set before the
call it is set after it.  (`evaluate` is modelled as a pure function of the
attribute — it returns only a `Status` and never writes the value — and an
extraction that raises leaves the attribute exactly as it was, so these two
cases preserve the value trivially.) -/
theorem C10_value_never_unset :
    ∀ (x : AnyAttribute) (c : Cache) (fs : FS) (p : String)
      (x2 : AnyAttribute) (c2 : Cache),
    AnyAttribute.process_logfile x c fs p = (.ok x2, c2) →
    x.valueIsSet = true → x2.valueIsSet = true := by
  intro x c fs p x2 c2 h hv
  cases x with
  | numeric a =>
    unfold AnyAttribute.process_logfile at h
    cases hp : NumericAttribute.process_logfile a c fs p with
    | mk e1 cc =>
      dsimp only at h
      rw [hp] at h
      cases e1 with
      | error e => simp [Except.map] at h
      | ok b =>
        simp only [Except.map, Except.ok.injEq, Prod.mk.injEq] at h
        rw [← h.1]
        simp only [AnyAttribute.valueIsSet]
        exact num_process_preserves_set hp
          (by simpa [AnyAttribute.valueIsSet] using hv)
  | count a =>
    unfold AnyAttribute.process_logfile at h
    cases hp : CountAttribute.process_logfile a c fs p with
    | mk e1 cc =>
      dsimp only at h
      rw [hp] at h
      cases e1 with
      | error e => simp [Except.map] at h
      | ok b =>
        simp only [Except.map, Except.ok.injEq, Prod.mk.injEq] at h
        rw [← h.1]
        simp only [AnyAttribute.valueIsSet]
        exact count_process_preserves_set hp
  | accumulator a =>
    unfold AnyAttribute.process_logfile at h
    cases hp : AccumulatorAttribute.process_logfile a c fs p with
    | mk e1 cc =>
      dsimp only at h
      rw [hp] at h
      cases e1 with
      | error e => simp [Except.map] at h
      | ok b =>
        simp only [Except.map, Except.ok.injEq, Prod.mk.injEq] at h
        rw [← h.1]
        simp only [AnyAttribute.valueIsSet]
        exact accum_process_preserves_set hp
  | complex a =>
    unfold AnyAttribute.process_logfile at h
    cases hp : ComplexAttribute.process_logfile a c fs p with
    | mk e1 cc =>
      dsimp only at h
      rw [hp] at h
      cases e1 with
      | error e => simp [Except.map] at h
      | ok b =>
        simp only [Except.map, Except.ok.injEq, Prod.mk.injEq] at h
        rw [← h.1]
        simp only [AnyAttribute.valueIsSet]
        exact complex_process_preserves_set hp
          (by simpa [AnyAttribute.valueIsSet] using hv)

/-- C10 witness: an attribute whose value is already set (7) is processed
over a file with no matching lines and keeps a set value. -/
theorem C10_value_never_unset_witness :
    AnyAttribute.valueIsSet (AnyAttribute.numeric w10) = true :=
  C10_value_never_unset (.numeric w10) [] fs10 "d.log" (.numeric w10)
    [("d.log", fs10raw)] (by rfl) (by rfl)

end AttrSys
